import Mathlib

/-!
Verification of the file-upload-with-virus-scan service.

Shallow embedding of the Python source:
  app/config.py, app/models.py, app/utils/helpers.py, app/storage/local.py,
  app/storage/s3.py, app/tasks/virus_scan.py, app/main.py.

Conventions of the embedding:
  * the Redis metadata store and the storage backends are association lists
    keyed by strings; file bytes are lists of naturals;
  * wall-clock instants are naturals; `datetime.utcnow()` is passed in
    explicitly as a `now` argument;
  * `tempfile.mkstemp`'s unique scratch names are modelled as naturals,
    freshness given by taking one more than the maximum name in use;
  * the jose JWT primitive (HS256 keyed MAC) is modelled by a deterministic
    keyed code: verification recomputes the tag and compares, exactly as a
    MAC check does; the proofs rely only on determinism of the tag;
  * fallible Python code (raised exceptions) is modelled with `Except` /
    `Option` or explicit error constructors.
-/

/-- Association-list read, modelling `dict`/Redis `GET`. -/
def aget {β : Type} (l : List (String × β)) (k : String) : Option β :=
  match l with
  | [] => none
  | (k2, v) :: rest => if k2 = k then some v else aget rest k

/-- Association-list write, modelling `dict` assignment / Redis `SETEX`
(the retention TTL plays no role in the verified claims). -/
def aset {β : Type} (l : List (String × β)) (k : String) (v : β) : List (String × β) :=
  match l with
  | [] => [(k, v)]
  | (k2, v2) :: rest => if k2 = k then (k, v) :: rest else (k2, v2) :: aset rest k v

/-- Association-list delete, modelling `os.remove` / S3 `DeleteObject` /
Redis `DEL`. -/
def adel {β : Type} (l : List (String × β)) (k : String) : List (String × β) :=
  match l with
  | [] => []
  | (k2, v2) :: rest => if k2 = k then adel rest k else (k2, v2) :: adel rest k

/-- app/models.py `ScanStatus`. -/
inductive ScanStatus
  | pending
  | scanning
  | clean
  | infected
  | error
deriving DecidableEq, Repr

/-- app/models.py `VirusScanResult`. -/
structure VirusScanResult where
  file_id : String
  status : ScanStatus
  scan_timestamp : Nat
  scan_duration : Nat
  engine_version : Option String
  threats_found : Option (List String)
  error_message : Option String
deriving DecidableEq, Repr

/-- The per-file metadata dict built in app/main.py `upload_file` and stored
in Redis under key `file:{file_id}`. -/
structure FileMetadata where
  file_id : String
  filename : String
  file_size : Nat
  content_type : String
  upload_timestamp : Nat
  scan_status : ScanStatus
  scan_result : Option VirusScanResult
  scan_timestamp : Option Nat
  download_count : Nat
  last_downloaded : Option Nat
  file_path : String
deriving DecidableEq, Repr

/-- The Redis metadata store: keys `file:{file_id}` to serialized records. -/
abbrev RedisStore := List (String × FileMetadata)

/-- A storage backend's contents: target name (or S3 key) to bytes. -/
abbrev Filesystem := List (String × List Nat)

/-- app/config.py `Settings.allowed_extensions`. -/
def allowed_extensions : List String :=
  [".txt", ".pdf", ".doc", ".docx", ".xls", ".xlsx",
   ".ppt", ".pptx", ".jpg", ".jpeg", ".png", ".gif",
   ".zip", ".rar", ".tar", ".gz"]

/-- app/config.py `Settings.max_file_size` (100 MB). -/
def max_file_size : Nat := 100 * 1024 * 1024

/-- app/config.py `Settings.secret_key`. -/
def secret_key : String := "your-secret-key-change-this-in-production"

/-- app/config.py `Settings.download_link_expire_hours`. -/
def download_link_expire_hours : Nat := 24

/-- app/config.py `Settings.local_storage_path`. -/
def local_storage_path : String := "./uploads"

/-- app/config.py: the bucket name `S3Storage` reads from settings. -/
def s3_bucket_name : String := "bucket"

/-- Helper for `pathBasename`: split a character list at `/` separators
(the component decomposition `pathlib.PurePath` performs). -/
def splitSlashAux : List Char → List Char → List (List Char)
  | [], acc => [acc.reverse]
  | c :: rest, acc =>
      if c = '/' then acc.reverse :: splitSlashAux rest []
      else splitSlashAux rest (c :: acc)

/-- `pathlib.Path(filename).name`: the last path component, with empty and
`.` components dropped. -/
def pathBasename (s : String) : String :=
  String.mk (((splitSlashAux s.toList []).filter
    (fun c => decide (c ≠ [] ∧ c ≠ ['.']))).getLastD [])

/-- Helper for `pathSuffix`: the index of the last `.` in the name, as
`str.rfind('.')` computes it. -/
def lastDotIndexAux : List Char → Nat → Option Nat → Option Nat
  | [], _, acc => acc
  | c :: rest, i, acc =>
      lastDotIndexAux rest (i + 1) (if c = '.' then some i else acc)

/-- `pathlib.Path(filename).suffix`: the substring of the name from its last
dot, provided that dot is neither the first nor the last character. -/
def pathSuffix (filename : String) : String :=
  let cs := (pathBasename filename).toList
  match lastDotIndexAux cs 0 none with
  | some i => if 0 < i ∧ i + 1 < cs.length then String.mk (cs.drop i) else ""
  | none => ""

/-- `str.lower()` on the ASCII range, as applied to extensions. -/
def lowerString (s : String) : String :=
  String.mk (s.toList.map Char.toLower)

/-- app/utils/helpers.py `get_file_extension`. -/
def get_file_extension (filename : String) : String :=
  lowerString (pathSuffix filename)

/-- app/utils/helpers.py `is_allowed_file`. -/
def is_allowed_file (filename : String) : Bool :=
  decide (get_file_extension filename ∈ allowed_extensions)

/-- app/utils/helpers.py `create_secure_filename`. -/
def create_secure_filename (original_filename : String) (file_id : String) : String :=
  file_id ++ get_file_extension original_filename

/-- A JWT claim set as built by `generate_download_token`:
`{"file_id": .., "exp": .., "type": ..}`. Absent claims are `none`. -/
structure TokenPayload where
  file_id : Option String
  exp : Nat
  type : Option String
deriving DecidableEq, Repr

/-- A keyed code over strings, used to model the HS256 MAC. -/
def strCode (s : String) : Nat :=
  s.toList.foldl (fun a c => a * 256 + c.toNat + 1) 1

/-- Deterministic encoding of a claim set. -/
def payloadCode (p : TokenPayload) : Nat :=
  (match p.file_id with | none => 0 | some s => strCode s + 1) * 7 +
  p.exp * 11 +
  (match p.type with | none => 0 | some s => strCode s + 1) * 13

/-- The jose HS256 keyed MAC, modelled as a deterministic keyed code of the
secret and the claim set; all proofs use only its determinism. -/
def hmacSign (secret : String) (p : TokenPayload) : Nat :=
  strCode secret * 1000003 + payloadCode p

/-- A download token on the wire: either a structurally well-formed signed
token (claim set plus tag) or an arbitrary malformed blob. -/
inductive DownloadToken
  | signed (payload : TokenPayload) (sig : Nat)
  | malformed (blob : String)
deriving DecidableEq, Repr

/-- `jose.jwt.decode(token, key, algorithms=["HS256"])` at wall-clock `now`:
rejects a malformed token, a tag mismatch, and an expired `exp`
(`ExpiredSignatureError` fires when `exp < now`); every rejection is a
`JWTError`, modelled as `none`. -/
def jwtDecode (secret : String) (now : Nat) : DownloadToken → Option TokenPayload
  | DownloadToken.signed p sig =>
      if sig = hmacSign secret p then
        if p.exp < now then none else some p
      else none
  | DownloadToken.malformed _ => none

/-- app/utils/helpers.py `generate_download_token`: signs
`{file_id, exp := now + delta (default from settings), type := "download"}`.
Time is in the same abstract units throughout. -/
def generate_download_token (now : Nat) (file_id : String)
    (expires_delta : Option Nat) : DownloadToken :=
  let expire := now + expires_delta.getD download_link_expire_hours
  DownloadToken.signed
    { file_id := some file_id, exp := expire, type := some "download" }
    (hmacSign secret_key
      { file_id := some file_id, exp := expire, type := some "download" })

/-- app/utils/helpers.py `verify_download_token`: decode, then require a
present `file_id` and `type == "download"`; any `JWTError` yields `None`. -/
def verify_download_token (now : Nat) (token : DownloadToken) : Option String :=
  match jwtDecode secret_key now token with
  | none => none
  | some payload =>
      match payload.file_id with
      | none => none
      | some fid =>
          match payload.type with
          | none => none
          | some t => if t = "download" then some fid else none

/-- app/storage/local.py `LocalStorage.get_file_path`. -/
def LocalStorage.get_file_path (file_id original_filename : String) : String :=
  local_storage_path ++ "/" ++ create_secure_filename original_filename file_id

/-- app/storage/local.py `LocalStorage.save_file`: refuses to write when the
target `{file_id}{extension}` already exists (`FileExistsError`), otherwise
writes the bytes and returns the path. -/
def LocalStorage.save_file (fs : Filesystem) (filename file_id : String)
    (content : List Nat) : Except String (String × Filesystem) :=
  let secure := create_secure_filename filename file_id
  let path := local_storage_path ++ "/" ++ secure
  if aget fs path ≠ none then
    Except.error ("File " ++ secure ++ " already exists")
  else
    Except.ok (path, aset fs path content)

/-- app/storage/local.py `LocalStorage.file_exists`. -/
def LocalStorage.file_exists (fs : Filesystem) (file_id original_filename : String) : Bool :=
  decide (aget fs (LocalStorage.get_file_path file_id original_filename) ≠ none)

/-- app/storage/local.py `LocalStorage.delete_file`: removes the target and
returns `true` when present, returns `false` when absent. -/
def LocalStorage.delete_file (fs : Filesystem) (file_id original_filename : String) :
    Bool × Filesystem :=
  let path := LocalStorage.get_file_path file_id original_filename
  match aget fs path with
  | some _ => (true, adel fs path)
  | none => (false, fs)

/-- app/storage/local.py `LocalStorage.get_download_path`: the path when the
file exists, else `None`. -/
def LocalStorage.get_download_path (fs : Filesystem) (file_id original_filename : String) :
    Option String :=
  let path := LocalStorage.get_file_path file_id original_filename
  if aget fs path ≠ none then some path else none

/-- app/storage/s3.py `S3Storage.get_s3_key`. -/
def S3Storage.get_s3_key (file_id original_filename : String) : String :=
  "uploads/" ++ create_secure_filename original_filename file_id

/-- app/storage/s3.py `S3Storage.save_file`: a bare `put_object`, which
succeeds whether or not the key already holds content, replacing it. -/
def S3Storage.save_file (bucket : Filesystem) (filename file_id : String)
    (content : List Nat) : String × Filesystem :=
  let key := "uploads/" ++ create_secure_filename filename file_id
  ("s3://" ++ s3_bucket_name ++ "/" ++ key, aset bucket key content)

/-- app/storage/s3.py `S3Storage.delete_file`: `delete_object` succeeds for
present and absent keys alike (S3 deletes are idempotent), so the function
returns `true` in both cases; only a client error yields `false`. -/
def S3Storage.delete_file (bucket : Filesystem) (file_id original_filename : String) :
    Bool × Filesystem :=
  (true, adel bucket (S3Storage.get_s3_key file_id original_filename))

/-- app/storage/s3.py `S3Storage.file_exists`. -/
def S3Storage.file_exists (bucket : Filesystem) (file_id original_filename : String) : Bool :=
  decide (aget bucket (S3Storage.get_s3_key file_id original_filename) ≠ none)

/-- A threat entry in the clamd response dict: pyclamd yields a tuple like
`('FOUND', name)`; any other value is stringified by the scanner. -/
inductive ThreatInfo
  | found (kind : String) (name : String)
  | plain (s : String)
deriving DecidableEq, Repr

/-- app/tasks/virus_scan.py line 95: `threat_info[1]` when it is a tuple,
`str(threat_info)` otherwise. -/
def threatString : ThreatInfo → String
  | ThreatInfo.found _ name => name
  | ThreatInfo.plain s => s

/-- What the ClamAV daemon interaction can produce, as seen by
`ClamAVScanner.scan_file`: a scan response dict (`None` or a mapping of
scanned path to threat info, modelled as an association list), a connection
failure (`connect` raising), or any other exception inside the scan call. -/
inductive DaemonResponse
  | ok (scan_result : Option (List (String × ThreatInfo)))
  | connectFail (msg : String)
  | protocolFail (msg : String)
deriving DecidableEq, Repr

/-- The outcome of `ClamAVScanner.scan_file`: either a parsed result or a
raised exception carrying a message. -/
inductive ScanCall
  | success (status : ScanStatus) (threats : List String) (engine : Option String)
  | failure (msg : String)
deriving DecidableEq, Repr

/-- app/tasks/virus_scan.py `ClamAVScanner.scan_file`: a failed `connect`
propagates its `ConnectionError`; inside the `try`, `None` parses as clean
with no threats; a nonempty mapping parses as infected with the first
entry's threat as the singleton list; an empty mapping hits
`list(scan_result.keys())[0]` and raises `IndexError`, re-raised as
`"Virus scan failed: ..."`, like every other exception in the block. -/
def ClamAVScanner.scan_file (version_info : String) : DaemonResponse → ScanCall
  | DaemonResponse.connectFail msg =>
      ScanCall.failure ("Failed to connect to ClamAV: " ++ msg)
  | DaemonResponse.protocolFail msg =>
      ScanCall.failure ("Virus scan failed: " ++ msg)
  | DaemonResponse.ok none =>
      ScanCall.success ScanStatus.clean [] (some version_info)
  | DaemonResponse.ok (some []) =>
      ScanCall.failure "Virus scan failed: list index out of range"
  | DaemonResponse.ok (some (entry :: _)) =>
      ScanCall.success ScanStatus.infected [threatString entry.2] (some version_info)

/-- app/config.py `storage_type` selection as wired in main.py and
virus_scan.py. -/
inductive StorageType
  | localFs
  | s3
deriving DecidableEq, Repr

/-- The externally determined behaviour of one orchestration run: the daemon
response, whether the S3 `download_file` call succeeds, the clamd engine
version string, the wall clock at result construction, and the measured
scan duration. -/
structure ScanEnv where
  daemon : DaemonResponse
  s3_download_ok : Bool
  version_info : String
  now : Nat
  duration : Nat
deriving DecidableEq, Repr

/-- The mutable state the service touches: the Redis record store, the
storage backend's contents, the scratch (temp) directory, and Celery's
per-task states. -/
structure SysState where
  redis : RedisStore
  storageFiles : Filesystem
  tempFiles : List Nat
  celery : List (String × String)
deriving DecidableEq, Repr

/-- A scratch name not in use: one more than the largest name in use,
modelling `mkstemp`'s fresh unique naming. -/
def freshTemp (l : List Nat) : Nat := l.foldr max 0 + 1

/-- app/storage/s3.py `S3Storage.download_file_to_temp`: `mkstemp` always
creates the scratch file first; then `download_file` either fills it (the
path is returned) or raises `ClientError` (`None` is returned and the
scratch file stays behind). A missing object or a failed transfer both
surface as `ClientError`. -/
def S3Storage.download_file_to_temp (st : SysState) (ok : Bool) (s3_key : String) :
    Option Nat × SysState :=
  let temp := freshTemp st.tempFiles
  ((if ok = true ∧ aget st.storageFiles s3_key ≠ none then some temp else none),
   { st with tempFiles := temp :: st.tempFiles })

/-- The error `VirusScanResult` built in the `except` block of
`scan_file_for_viruses` (threats and engine version left unset). -/
def scanErrorResult (file_id : String) (env : ScanEnv) (msg : String) : VirusScanResult :=
  { file_id := file_id, status := ScanStatus.error, scan_timestamp := env.now,
    scan_duration := env.duration, engine_version := none, threats_found := none,
    error_message := some msg }

/-- The `VirusScanResult` built from the scanner call in
`scan_file_for_viruses`: a successful parse carries its status, threat list
and engine version; a raised exception lands in the `except` block. -/
def afterScanResult (file_id : String) (env : ScanEnv) : VirusScanResult :=
  match ClamAVScanner.scan_file env.version_info env.daemon with
  | ScanCall.success status threats engine =>
      { file_id := file_id, status := status, scan_timestamp := env.now,
        scan_duration := env.duration, engine_version := engine,
        threats_found := some threats, error_message := none }
  | ScanCall.failure msg => scanErrorResult file_id env msg

/-- app/tasks/virus_scan.py `scan_file_for_viruses`: updates the Celery task
state to SCANNING (not the file record), resolves a scannable path (local
path, or S3 staged to a scratch file), runs the scanner, and builds a
terminal `VirusScanResult` on every path (the `except` block turns any
raise into an error result); the `finally` block unlinks the scratch file
when one was returned. The Redis file record is never read or written. -/
def scan_file_for_viruses (storage_type : StorageType) (env : ScanEnv) (st : SysState)
    (file_id filename : String) : VirusScanResult × SysState :=
  let st1 : SysState := { st with celery := aset st.celery file_id "SCANNING" }
  match storage_type with
  | StorageType.localFs =>
      if aget st1.storageFiles (LocalStorage.get_file_path file_id filename) = none then
        (scanErrorResult file_id env "File not found in local storage", st1)
      else
        (afterScanResult file_id env, st1)
  | StorageType.s3 =>
      match S3Storage.download_file_to_temp st1 env.s3_download_ok
          (S3Storage.get_s3_key file_id filename) with
      | (none, st2) =>
          (scanErrorResult file_id env "Failed to download file from S3 for scanning", st2)
      | (some temp, st2) =>
          (afterScanResult file_id env,
           { st2 with tempFiles := st2.tempFiles.filter (fun x => decide (x ≠ temp)) })

/-- app/main.py `get_file_metadata`. -/
def get_file_metadata (store : RedisStore) (file_id : String) : Option FileMetadata :=
  aget store ("file:" ++ file_id)

/-- app/main.py `save_file_metadata`. -/
def save_file_metadata (store : RedisStore) (file_id : String) (md : FileMetadata) :
    RedisStore :=
  aset store ("file:" ++ file_id) md

/-- app/main.py `update_file_scan_result`: when the record exists, set its
`scan_status`, `scan_result` and `scan_timestamp` from the outcome — with
no guard on the record's current state — and save; `false` when absent. -/
def update_file_scan_result (store : RedisStore) (file_id : String)
    (sr : VirusScanResult) : RedisStore × Bool :=
  match get_file_metadata store file_id with
  | some md =>
      (save_file_metadata store file_id
        { md with scan_status := sr.status, scan_result := some sr,
                  scan_timestamp := some sr.scan_timestamp }, true)
  | none => (store, false)

/-- Outcome of the `/upload` endpoint. -/
inductive UploadOutcome
  | noFilename
  | notAllowed
  | tooLarge
  | emptyFile
  | conflict (msg : String)
  | accepted (file_path : String)
deriving DecidableEq, Repr

/-- app/main.py `upload_file` (local-storage wiring): validation in source
order — missing filename, disallowed extension, oversize, empty — each
rejecting before any bytes or record are persisted; then the storage write
(`FileExistsError` becomes a conflict) and the pending record. -/
def upload_file (st : SysState) (now : Nat) (filename content_type : String)
    (content : List Nat) (file_id : String) : UploadOutcome × SysState :=
  if filename = "" then (UploadOutcome.noFilename, st)
  else if is_allowed_file filename = false then (UploadOutcome.notAllowed, st)
  else if max_file_size < content.length then (UploadOutcome.tooLarge, st)
  else if content.length = 0 then (UploadOutcome.emptyFile, st)
  else
    match LocalStorage.save_file st.storageFiles filename file_id content with
    | Except.error e => (UploadOutcome.conflict e, st)
    | Except.ok (path, fs2) =>
        let md : FileMetadata :=
          { file_id := file_id, filename := filename, file_size := content.length,
            content_type := content_type, upload_timestamp := now,
            scan_status := ScanStatus.pending, scan_result := none,
            scan_timestamp := none, download_count := 0, last_downloaded := none,
            file_path := path }
        (UploadOutcome.accepted path,
         { st with storageFiles := fs2, redis := save_file_metadata st.redis file_id md })

/-- Outcome of the `/files/{id}/download-link` endpoint. -/
inductive LinkOutcome
  | notFound
  | forbidden
  | pendingRetry
  | scanFailed
  | storageMissing
  | link (token : DownloadToken)
deriving DecidableEq, Repr

/-- app/main.py `generate_download_link`: 404 when the record is absent;
403 for `infected`; 202 retry-later for `pending`/`scanning`; 500 for
`error`; for `clean`, a storage-existence check and then a signed token. -/
def generate_download_link (store : RedisStore) (fs : Filesystem) (now : Nat)
    (file_id : String) : LinkOutcome :=
  match get_file_metadata store file_id with
  | none => LinkOutcome.notFound
  | some md =>
      match md.scan_status with
      | ScanStatus.infected => LinkOutcome.forbidden
      | ScanStatus.pending => LinkOutcome.pendingRetry
      | ScanStatus.scanning => LinkOutcome.pendingRetry
      | ScanStatus.error => LinkOutcome.scanFailed
      | ScanStatus.clean =>
          if LocalStorage.file_exists fs file_id md.filename then
            LinkOutcome.link (generate_download_token now file_id none)
          else LinkOutcome.storageMissing

/-- Outcome of the `/download/{token}` endpoint. -/
inductive DownloadOutcome
  | unauthorized
  | recordNotFound
  | forbidden
  | storageMissing
  | served (path : String) (newStore : RedisStore)
deriving DecidableEq, Repr

/-- app/main.py `download_file`, the part after the record was fetched:
re-check `scan_status == clean` even for a valid token, then serve the
bytes and bump the download statistics (local-storage wiring). -/
def download_file_with_record (store : RedisStore) (fs : Filesystem) (now : Nat)
    (fid : String) (md : FileMetadata) : DownloadOutcome :=
  if md.scan_status ≠ ScanStatus.clean then DownloadOutcome.forbidden
  else
    match LocalStorage.get_download_path fs fid md.filename with
    | none => DownloadOutcome.storageMissing
    | some p =>
        DownloadOutcome.served p
          (save_file_metadata store fid
            { md with download_count := md.download_count + 1,
                      last_downloaded := some now })

/-- app/main.py `download_file`, the part after the token was verified:
fetch the record for the token's file id, 404 when absent. -/
def download_file_verified (store : RedisStore) (fs : Filesystem) (now : Nat)
    (fid : String) : DownloadOutcome :=
  match get_file_metadata store fid with
  | none => DownloadOutcome.recordNotFound
  | some md => download_file_with_record store fs now fid md

/-- app/main.py `download_file`: verify the token, then proceed with the
record fetch and the redemption-time clean re-check. -/
def download_file (store : RedisStore) (fs : Filesystem) (now : Nat)
    (token : DownloadToken) : DownloadOutcome :=
  match verify_download_token now token with
  | none => DownloadOutcome.unauthorized
  | some fid => download_file_verified store fs now fid

/-- Fixture: a freshly uploaded record, state `pending`. -/
def mdPending : FileMetadata :=
  { file_id := "f1", filename := "a.txt", file_size := 2, content_type := "text/plain",
    upload_timestamp := 0, scan_status := ScanStatus.pending, scan_result := none,
    scan_timestamp := none, download_count := 0, last_downloaded := none,
    file_path := "./uploads/f1.txt" }

/-- Fixture: a clean scan outcome recorded at time 100. -/
def cleanOutcome : VirusScanResult :=
  { file_id := "f1", status := ScanStatus.clean, scan_timestamp := 100,
    scan_duration := 2, engine_version := some "0.103", threats_found := some [],
    error_message := none }

/-- Fixture: an error scan outcome recorded at time 300. -/
def errorOutcome : VirusScanResult :=
  { file_id := "f1", status := ScanStatus.error, scan_timestamp := 300,
    scan_duration := 1, engine_version := none, threats_found := none,
    error_message := some "daemon down" }

/-- Fixture: a record already carrying a terminal clean outcome. -/
def mdClean : FileMetadata :=
  { mdPending with scan_status := ScanStatus.clean, scan_result := some cleanOutcome,
                   scan_timestamp := some 100 }

/-- Fixture: a record in terminal state `infected`. -/
def mdInfected : FileMetadata :=
  { mdPending with scan_status := ScanStatus.infected }

/-- Fixture: a run in which the daemon reports no detections. -/
def envClean : ScanEnv :=
  { daemon := DaemonResponse.ok none, s3_download_ok := true,
    version_info := "0.103", now := 200, duration := 3 }

/-- Fixture: a run in which the daemon reports a detection for the scanned
path. -/
def envInfected : ScanEnv :=
  { envClean with
    daemon := DaemonResponse.ok
      (some [("./uploads/f1.txt", ThreatInfo.found "FOUND" "EICAR-Test")]) }

/-- Fixture: a run in which the daemon answers with an empty mapping. -/
def envEmptyMap : ScanEnv :=
  { envClean with daemon := DaemonResponse.ok (some []) }

/-- Fixture: a run in which connecting to the daemon fails. -/
def envDown : ScanEnv :=
  { envClean with daemon := DaemonResponse.connectFail "connection refused" }

/-- Fixture: empty system state. -/
def stEmpty : SysState :=
  { redis := [], storageFiles := [], tempFiles := [], celery := [] }

/-- Fixture: record `f1` pending, its bytes present in local storage. -/
def stWithFile : SysState :=
  { redis := aset [] "file:f1" mdPending,
    storageFiles := aset [] "./uploads/f1.txt" [1, 2], tempFiles := [], celery := [] }

/-- Fixture: record `f1` already terminal (clean), bytes present. -/
def stClean : SysState :=
  { stWithFile with redis := aset [] "file:f1" mdClean }

/-- Fixture: the object for `f1`/`a.txt` present in the S3 bucket. -/
def stS3 : SysState :=
  { redis := [], storageFiles := aset [] "uploads/f1.txt" [1, 2], tempFiles := [],
    celery := [] }

theorem aget_aset_self {β : Type} (l : List (String × β)) (k : String) (v : β) :
    aget (aset l k v) k = some v := by
  induction l with
  | nil => simp [aget, aset]
  | cons h t ih =>
    obtain ⟨k2, v2⟩ := h
    by_cases hk : k2 = k
    · simp [aget, aset, hk]
    · simp [aget, aset, hk, ih]

theorem aget_adel_self {β : Type} (l : List (String × β)) (k : String) :
    aget (adel l k) k = none := by
  induction l with
  | nil => simp [adel, aget]
  | cons h t ih =>
    obtain ⟨k2, v2⟩ := h
    by_cases hk : k2 = k
    · simp [adel, hk, ih]
    · simp [adel, aget, hk, ih]

theorem le_foldr_max (l : List Nat) : ∀ x ∈ l, x ≤ l.foldr max 0 := by
  induction l with
  | nil => intro x hx; cases hx
  | cons a t ih =>
    intro x hx
    cases hx with
    | head => exact Nat.le_max_left _ _
    | tail _ h => exact Nat.le_trans (ih x h) (Nat.le_max_right _ _)

theorem freshTemp_not_mem (l : List Nat) : freshTemp l ∉ l := by
  intro h
  have h2 := le_foldr_max l (freshTemp l) h
  unfold freshTemp at h2
  omega

theorem filter_ne_of_not_mem (l : List Nat) (a : Nat) (h : a ∉ l) :
    List.filter (fun x => decide (x ≠ a)) l = l := by
  induction l with
  | nil => rfl
  | cons b t ih =>
    have hb : b ≠ a := by
      intro e
      subst e
      exact h (List.mem_cons_self b t)
    have ht : a ∉ t := fun hm => h (List.mem_cons_of_mem b hm)
    simp [List.filter_cons, hb, ih ht]
    intro x hx e
    subst e
    exact ht hx

theorem filter_fresh (l : List Nat) :
    List.filter (fun x => decide (x ≠ freshTemp l)) (freshTemp l :: l) = l := by
  have h2 := filter_ne_of_not_mem l (freshTemp l) (freshTemp_not_mem l)
  simp only [List.filter_cons, ne_eq, not_true_eq_false, decide_False, Bool.false_eq_true,
    if_false]
  simpa using h2

/-- C1: the claim says every orchestration run on an existing record writes
the `ScanOutcome` into the FileRecord and leaves the record in a terminal
state. The code never does: `scan_file_for_viruses` neither reads nor
writes the Redis record (first conjunct: the record store is unchanged by
any run), and concretely a run over a `pending` record that the daemon
reports clean still leaves the record `pending` with no `scan_timestamp`,
even though the run itself returned a clean outcome. -/
theorem C1_scan_result_never_written_to_record :
  (∀ (t : StorageType) (env : ScanEnv) (st : SysState) (fid fn : String),
     (scan_file_for_viruses t env st fid fn).2.redis = st.redis) ∧
  ((scan_file_for_viruses StorageType.localFs envClean stWithFile "f1" "a.txt").1.status
     = ScanStatus.clean ∧
   (get_file_metadata
       (scan_file_for_viruses StorageType.localFs envClean stWithFile "f1" "a.txt").2.redis
       "f1").map FileMetadata.scan_status = some ScanStatus.pending ∧
   (get_file_metadata
       (scan_file_for_viruses StorageType.localFs envClean stWithFile "f1" "a.txt").2.redis
       "f1").bind FileMetadata.scan_timestamp = none) := by
  constructor
  · intro t env st fid fn
    cases t
    · by_cases h : aget st.storageFiles (LocalStorage.get_file_path fid fn) = none <;>
        simp [scan_file_for_viruses, h]
    · by_cases h : env.s3_download_ok = true ∧
        aget st.storageFiles (S3Storage.get_s3_key fid fn) ≠ none <;>
        simp [scan_file_for_viruses, S3Storage.download_file_to_temp, h]
  · exact ⟨by decide, by decide, by decide⟩

/-- C3 counterexample: the claim says a record never moves directly from
`pending` to a terminal state and never leaves a terminal state. The only
record-state transition in the code, `update_file_scan_result`, does both:
applied to the `pending` record it yields `clean` at once (no `scanning`
step is ever written into the record), and a second application moves the
terminal `clean` record to `error`. -/
theorem C3_pending_jumps_to_terminal_counterexample :
  ((get_file_metadata
      (update_file_scan_result (aset [] "file:f1" mdPending) "f1" cleanOutcome).1
      "f1").map FileMetadata.scan_status = some ScanStatus.clean) ∧
  ((get_file_metadata
      (update_file_scan_result
        (update_file_scan_result (aset [] "file:f1" mdPending) "f1" cleanOutcome).1
        "f1" errorOutcome).1
      "f1").map FileMetadata.scan_status = some ScanStatus.error) := by
  decide

/-- C3 (amended): `update_file_scan_result` applies the outcome to any
existing record unconditionally — it sets `scan_status` to the outcome's
status regardless of the record's prior state, so a `pending` record moves
directly to a terminal state, and a later update overwrites a terminal
state; `scan_result` and `scan_timestamp` are set from the outcome at the
same time. -/
theorem C3_update_unconditional :
  ∀ (store : RedisStore) (fid : String) (sr : VirusScanResult) (md : FileMetadata),
    get_file_metadata store fid = some md →
    (update_file_scan_result store fid sr).2 = true ∧
    get_file_metadata (update_file_scan_result store fid sr).1 fid =
      some { md with scan_status := sr.status, scan_result := some sr,
                     scan_timestamp := some sr.scan_timestamp } := by
  intro store fid sr md hmd
  have hmd2 : aget store ("file:" ++ fid) = some md := hmd
  constructor
  · simp [update_file_scan_result, get_file_metadata, hmd2]
  · simp [update_file_scan_result, get_file_metadata, save_file_metadata, hmd2,
          aget_aset_self]

/-- C3 witness: the amended theorem applied to the concrete pending record
and clean outcome. -/
theorem C3_update_unconditional_witness :
  (update_file_scan_result (aset [] "file:f1" mdPending) "f1" cleanOutcome).2 = true ∧
  get_file_metadata
      (update_file_scan_result (aset [] "file:f1" mdPending) "f1" cleanOutcome).1
      "f1" =
    some { mdPending with scan_status := cleanOutcome.status,
                          scan_result := some cleanOutcome,
                          scan_timestamp := some cleanOutcome.scan_timestamp } :=
  C3_update_unconditional (aset [] "file:f1" mdPending) "f1" cleanOutcome mdPending
    (by decide)

/-- C4 counterexample: the claim says invoking the orchestration again for a
record already in a terminal state is a no-op returning the existing
terminal result. Concretely, re-invoking over the record holding a `clean`
outcome from time 100 re-runs the scan: the run returns a fresh `infected`
outcome with a new timestamp 200, not the record's existing result. -/
theorem C4_rescan_counterexample :
  mdClean.scan_status = ScanStatus.clean ∧
  mdClean.scan_timestamp = some 100 ∧
  (scan_file_for_viruses StorageType.localFs envInfected stClean "f1" "a.txt").1.status
    = ScanStatus.infected ∧
  (scan_file_for_viruses StorageType.localFs envInfected stClean "f1" "a.txt").1.scan_timestamp
    = 200 ∧
  (scan_file_for_viruses StorageType.localFs envInfected stClean "f1" "a.txt").1.threats_found
    = some ["EICAR-Test"] := by
  decide

/-- C4 (amended): the orchestration has no idempotency guard at all — it
never reads the file record, so its returned outcome and its effects on the
scratch directory and the storage backend are identical whatever the
record's current state; every invocation (including a redelivery) re-runs
the scan and produces its own outcome and `scan_timestamp`. -/
theorem C4_orchestrator_ignores_record :
  ∀ (t : StorageType) (env : ScanEnv) (r1 r2 : RedisStore) (fs : Filesystem)
    (tmp : List Nat) (cel : List (String × String)) (fid fn : String),
    (scan_file_for_viruses t env ⟨r1, fs, tmp, cel⟩ fid fn).1 =
      (scan_file_for_viruses t env ⟨r2, fs, tmp, cel⟩ fid fn).1 ∧
    (scan_file_for_viruses t env ⟨r1, fs, tmp, cel⟩ fid fn).2.tempFiles =
      (scan_file_for_viruses t env ⟨r2, fs, tmp, cel⟩ fid fn).2.tempFiles ∧
    (scan_file_for_viruses t env ⟨r1, fs, tmp, cel⟩ fid fn).2.storageFiles =
      (scan_file_for_viruses t env ⟨r2, fs, tmp, cel⟩ fid fn).2.storageFiles := by
  intro t env r1 r2 fs tmp cel fid fn
  cases t
  · by_cases h : aget fs (LocalStorage.get_file_path fid fn) = none <;>
      simp [scan_file_for_viruses, h]
  · by_cases h : env.s3_download_ok = true ∧
      aget fs (S3Storage.get_s3_key fid fn) ≠ none <;>
      simp [scan_file_for_viruses, S3Storage.download_file_to_temp, h]

theorem xor255_ne (n : Nat) : n ^^^ 255 ≠ n := by
  intro h
  have h2 : n ^^^ (n ^^^ 255) = n ^^^ n := by rw [h]
  rw [← Nat.xor_assoc, Nat.xor_self, Nat.zero_xor] at h2
  exact absurd h2 (by decide)

theorem jwtDecode_signed_ok (p : TokenPayload) (now : Nat) (h : ¬ (p.exp < now)) :
    jwtDecode secret_key now (DownloadToken.signed p (hmacSign secret_key p)) = some p := by
  simp [jwtDecode, h]

theorem jwtDecode_signed_expired (p : TokenPayload) (now : Nat) (h : p.exp < now) :
    jwtDecode secret_key now (DownloadToken.signed p (hmacSign secret_key p)) = none := by
  simp [jwtDecode, h]

theorem jwtDecode_sig_mismatch (p : TokenPayload) (sig now : Nat)
    (h : sig ≠ hmacSign secret_key p) :
    jwtDecode secret_key now (DownloadToken.signed p sig) = none := by
  simp [jwtDecode, h]

theorem verify_of_decode (tok : DownloadToken) (t : Nat) (fid : String) (e : Nat)
    (h : jwtDecode secret_key t tok =
      some { file_id := some fid, exp := e, type := some "download" }) :
    verify_download_token t tok = some fid := by
  simp [verify_download_token, h]

theorem verify_of_decode_none (tok : DownloadToken) (t : Nat)
    (h : jwtDecode secret_key t tok = none) :
    verify_download_token t tok = none := by
  simp [verify_download_token, h]

/-- C5: token round-trip. `verify(issue(file_id, ttl))` returns `file_id`
whenever verification happens no later than `now + ttl` (so in particular
strictly before the ttl elapses); after the ttl it returns invalid; a token
whose tag does not match the recomputed MAC — in particular one whose tag
had a byte flipped — is invalid; a structurally malformed token is invalid;
a well-signed token whose purpose claim is not "download" is invalid. Each
case returns `none` rather than raising. -/
theorem C5_token_roundtrip :
  (∀ (fid : String) (ttl now t : Nat), t ≤ now + ttl →
     verify_download_token t (generate_download_token now fid (some ttl)) = some fid) ∧
  (∀ (fid : String) (ttl now t : Nat), now + ttl < t →
     verify_download_token t (generate_download_token now fid (some ttl)) = none) ∧
  (∀ (p : TokenPayload) (sig t : Nat), sig ≠ hmacSign secret_key p →
     verify_download_token t (DownloadToken.signed p sig) = none) ∧
  (∀ (p : TokenPayload) (t : Nat),
     verify_download_token t (DownloadToken.signed p (hmacSign secret_key p ^^^ 255))
       = none) ∧
  (∀ (blob : String) (t : Nat),
     verify_download_token t (DownloadToken.malformed blob) = none) ∧
  (∀ (p : TokenPayload) (t : Nat), p.type ≠ some "download" →
     verify_download_token t (DownloadToken.signed p (hmacSign secret_key p)) = none) := by
  refine ⟨?_, ?_, ?_, ?_, ?_, ?_⟩
  · intro fid ttl now t h
    apply verify_of_decode _ _ _ (now + ttl)
    unfold generate_download_token
    simp only [Option.getD_some]
    exact jwtDecode_signed_ok _ t (by simp only []; omega)
  · intro fid ttl now t h
    apply verify_of_decode_none
    unfold generate_download_token
    simp only [Option.getD_some]
    exact jwtDecode_signed_expired _ t (by simp only []; omega)
  · intro p sig t h
    exact verify_of_decode_none _ _ (jwtDecode_sig_mismatch p sig t h)
  · intro p t
    exact verify_of_decode_none _ _
      (jwtDecode_sig_mismatch p _ t (xor255_ne (hmacSign secret_key p)))
  · intro blob t
    exact verify_of_decode_none _ _ rfl
  · intro p t h
    obtain ⟨pfid, pexp, pty⟩ := p
    by_cases hexp : pexp < t
    · exact verify_of_decode_none _ _ (jwtDecode_signed_expired ⟨pfid, pexp, pty⟩ t hexp)
    · have hd := jwtDecode_signed_ok ⟨pfid, pexp, pty⟩ t hexp
      cases pfid with
      | none => simp [verify_download_token, hd]
      | some fid =>
        cases pty with
        | none => simp [verify_download_token, hd]
        | some ty =>
          have hne2 : ty ≠ "download" := fun e => h (by rw [e])
          simp [verify_download_token, hd, hne2]

/-- C5 witness: the round-trip theorem applied at concrete inputs — a token
issued at time 0 with ttl 10 verifies at time 5 and fails at time 11; a
wrong tag, a malformed blob, and a wrong purpose all fail. -/
theorem C5_token_roundtrip_witness :
  verify_download_token 5 (generate_download_token 0 "f1" (some 10)) = some "f1" ∧
  verify_download_token 11 (generate_download_token 0 "f1" (some 10)) = none ∧
  verify_download_token 5
      (DownloadToken.signed
        { file_id := some "f1", exp := 10, type := some "download" } 0) = none ∧
  verify_download_token 5 (DownloadToken.malformed "junk") = none ∧
  verify_download_token 5
      (DownloadToken.signed { file_id := some "f1", exp := 10, type := some "upload" }
        (hmacSign secret_key
          { file_id := some "f1", exp := 10, type := some "upload" })) = none := by
  have h := C5_token_roundtrip
  exact ⟨h.1 "f1" 10 0 5 (by omega), h.2.1 "f1" 10 0 11 (by omega),
         h.2.2.1 { file_id := some "f1", exp := 10, type := some "download" } 0 5
           (by decide),
         h.2.2.2.2.1 "junk" 5,
         h.2.2.2.2.2 { file_id := some "f1", exp := 10, type := some "upload" } 5
           (by decide)⟩

theorem afterScanResult_daemon_of_clean (fid : String) (env : ScanEnv) :
    (afterScanResult fid env).status = ScanStatus.clean →
    env.daemon = DaemonResponse.ok none := by
  intro h
  rcases hd : env.daemon with r | m | m
  · rcases r with _ | l
    · rfl
    · rcases l with _ | ⟨e, rest⟩ <;>
        simp [afterScanResult, ClamAVScanner.scan_file, scanErrorResult, hd] at h
  · simp [afterScanResult, ClamAVScanner.scan_file, scanErrorResult, hd] at h
  · simp [afterScanResult, ClamAVScanner.scan_file, scanErrorResult, hd] at h

theorem afterScanResult_error_message (fid : String) (env : ScanEnv) :
    (afterScanResult fid env).status = ScanStatus.error →
    ∃ m, (afterScanResult fid env).error_message = some m := by
  intro h
  rcases hd : env.daemon with r | m | m
  · rcases r with _ | l
    · simp [afterScanResult, ClamAVScanner.scan_file, scanErrorResult, hd] at h
    · rcases l with _ | ⟨e, rest⟩
      · refine ⟨"Virus scan failed: list index out of range", ?_⟩
        simp [afterScanResult, ClamAVScanner.scan_file, scanErrorResult, hd]
      · simp [afterScanResult, ClamAVScanner.scan_file, scanErrorResult, hd] at h
  · refine ⟨"Failed to connect to ClamAV: " ++ m, ?_⟩
    simp [afterScanResult, ClamAVScanner.scan_file, scanErrorResult, hd]
  · refine ⟨"Virus scan failed: " ++ m, ?_⟩
    simp [afterScanResult, ClamAVScanner.scan_file, scanErrorResult, hd]

theorem afterScanResult_error_of (fid : String) (env : ScanEnv)
    (h : env.daemon = DaemonResponse.ok (some []) ∨
         (∃ m, env.daemon = DaemonResponse.connectFail m) ∨
         (∃ m, env.daemon = DaemonResponse.protocolFail m)) :
    (afterScanResult fid env).status = ScanStatus.error := by
  rcases h with h | ⟨m, h⟩ | ⟨m, h⟩ <;>
    simp [afterScanResult, ClamAVScanner.scan_file, scanErrorResult, h]

theorem scan_result_shape (t : StorageType) (env : ScanEnv) (st : SysState)
    (fid fn : String) :
    (scan_file_for_viruses t env st fid fn).1 = afterScanResult fid env ∨
    ∃ msg, (scan_file_for_viruses t env st fid fn).1 = scanErrorResult fid env msg := by
  cases t
  · by_cases hl : aget st.storageFiles (LocalStorage.get_file_path fid fn) = none
    · exact Or.inr ⟨"File not found in local storage", by simp [scan_file_for_viruses, hl]⟩
    · exact Or.inl (by simp [scan_file_for_viruses, hl])
  · by_cases hdl : env.s3_download_ok = true ∧
      aget st.storageFiles (S3Storage.get_s3_key fid fn) ≠ none
    · exact Or.inl (by simp [scan_file_for_viruses, S3Storage.download_file_to_temp, hdl])
    · exact Or.inr ⟨"Failed to download file from S3 for scanning",
        by simp [scan_file_for_viruses, S3Storage.download_file_to_temp, hdl]⟩

/-- C6 counterexample: the claim says a null or EMPTY detection payload
yields status clean with empty threats. On an empty mapping the code
instead hits `list(scan_result.keys())[0]`, raises `IndexError`, and the
orchestrator classifies the run as `error` — not clean. -/
theorem C6_empty_mapping_counterexample :
  ClamAVScanner.scan_file "0.103" (DaemonResponse.ok (some [])) =
    ScanCall.failure "Virus scan failed: list index out of range" ∧
  (scan_file_for_viruses StorageType.localFs envEmptyMap stWithFile "f1" "a.txt").1.status
    = ScanStatus.error ∧
  (scan_file_for_viruses StorageType.localFs envEmptyMap stWithFile "f1" "a.txt").1.status
    ≠ ScanStatus.clean := by
  refine ⟨by decide, by decide, by decide⟩

/-- C6 (amended): the scan client's parsing handles a null (absent)
detection payload as clean with empty threats, and a nonempty mapping as
infected with the first entry's threat signature as the singleton threats
list; an empty mapping — like every connection failure, protocol violation
or other unexpected shape — is classified as `status=error` carrying an
error detail, and a run is never classified clean unless the daemon's
payload was null. -/
theorem C6_scan_classification :
  (∀ v : String, ClamAVScanner.scan_file v (DaemonResponse.ok none) =
     ScanCall.success ScanStatus.clean [] (some v)) ∧
  (∀ (v p : String) (ti : ThreatInfo) (rest : List (String × ThreatInfo)),
     ClamAVScanner.scan_file v (DaemonResponse.ok (some ((p, ti) :: rest))) =
       ScanCall.success ScanStatus.infected [threatString ti] (some v)) ∧
  (∀ (t : StorageType) (env : ScanEnv) (st : SysState) (fid fn : String),
     (scan_file_for_viruses t env st fid fn).1.status = ScanStatus.clean →
     env.daemon = DaemonResponse.ok none) ∧
  (∀ (t : StorageType) (env : ScanEnv) (st : SysState) (fid fn : String),
     (env.daemon = DaemonResponse.ok (some []) ∨
      (∃ m, env.daemon = DaemonResponse.connectFail m) ∨
      (∃ m, env.daemon = DaemonResponse.protocolFail m)) →
     (scan_file_for_viruses t env st fid fn).1.status = ScanStatus.error) ∧
  (∀ (t : StorageType) (env : ScanEnv) (st : SysState) (fid fn : String),
     (scan_file_for_viruses t env st fid fn).1.status = ScanStatus.error →
     ∃ m, (scan_file_for_viruses t env st fid fn).1.error_message = some m) := by
  refine ⟨?_, ?_, ?_, ?_, ?_⟩
  · intro v; rfl
  · intro v p ti rest; rfl
  · intro t env st fid fn h
    rcases scan_result_shape t env st fid fn with heq | ⟨msg, heq⟩
    · rw [heq] at h
      exact afterScanResult_daemon_of_clean fid env h
    · rw [heq] at h
      simp [scanErrorResult] at h
  · intro t env st fid fn hcase
    rcases scan_result_shape t env st fid fn with heq | ⟨msg, heq⟩
    · rw [heq]
      exact afterScanResult_error_of fid env hcase
    · rw [heq]
      rfl
  · intro t env st fid fn h
    rcases scan_result_shape t env st fid fn with heq | ⟨msg, heq⟩
    · rw [heq] at h ⊢
      exact afterScanResult_error_message fid env h
    · rw [heq]
      exact ⟨msg, rfl⟩

/-- C6 witness: the amended theorem applied at concrete runs — a clean
outcome implies the fixture daemon payload was null; a run against an
unreachable daemon is classified error and carries an error detail. -/
theorem C6_scan_classification_witness :
  envClean.daemon = DaemonResponse.ok none ∧
  (scan_file_for_viruses StorageType.localFs envDown stWithFile "f1" "a.txt").1.status
    = ScanStatus.error ∧
  (∃ m, (scan_file_for_viruses StorageType.localFs envDown stWithFile "f1" "a.txt").1.error_message
    = some m) := by
  have h := C6_scan_classification
  refine ⟨h.2.2.1 StorageType.localFs envClean stWithFile "f1" "a.txt" (by decide), ?_, ?_⟩
  · exact h.2.2.2.1 StorageType.localFs envDown stWithFile "f1" "a.txt"
      (Or.inr (Or.inl ⟨"connection refused", by decide⟩))
  · exact h.2.2.2.2 StorageType.localFs envDown stWithFile "f1" "a.txt"
      (h.2.2.2.1 StorageType.localFs envDown stWithFile "f1" "a.txt"
        (Or.inr (Or.inl ⟨"connection refused", by decide⟩)))

theorem download_file_eq_none (store : RedisStore) (fs : Filesystem) (now : Nat)
    (tok : DownloadToken) (hv : verify_download_token now tok = none) :
    download_file store fs now tok = DownloadOutcome.unauthorized := by
  unfold download_file
  rw [hv]

theorem download_file_eq_some (store : RedisStore) (fs : Filesystem) (now : Nat)
    (tok : DownloadToken) (fid : String)
    (hv : verify_download_token now tok = some fid) :
    download_file store fs now tok = download_file_verified store fs now fid := by
  unfold download_file
  rw [hv]

theorem download_file_verified_eq_none (store : RedisStore) (fs : Filesystem)
    (now : Nat) (fid : String) (hmd : get_file_metadata store fid = none) :
    download_file_verified store fs now fid = DownloadOutcome.recordNotFound := by
  unfold download_file_verified
  rw [hmd]

theorem download_file_verified_eq_some (store : RedisStore) (fs : Filesystem)
    (now : Nat) (fid : String) (md : FileMetadata)
    (hmd : get_file_metadata store fid = some md) :
    download_file_verified store fs now fid =
      download_file_with_record store fs now fid md := by
  unfold download_file_verified
  rw [hmd]

theorem download_file_with_record_forbidden (store : RedisStore) (fs : Filesystem)
    (now : Nat) (fid : String) (md : FileMetadata)
    (hne : md.scan_status ≠ ScanStatus.clean) :
    download_file_with_record store fs now fid md = DownloadOutcome.forbidden := by
  unfold download_file_with_record
  rw [if_pos hne]

/-- C2: bytes are released only for `clean` records. The download-link
operation answers Forbidden for `infected`, the retry-later Pending signal
for `pending`/`scanning`, and issues a link only when the record is
`clean`; and the token-redemption path serves bytes only when the record's
current state is `clean` — in particular a structurally valid, unexpired,
correctly signed token for a non-clean record is refused with Forbidden. -/
theorem C2_release_only_when_clean :
  (∀ (store : RedisStore) (fs : Filesystem) (now : Nat) (fid : String) (md : FileMetadata),
     get_file_metadata store fid = some md →
     ((md.scan_status = ScanStatus.infected →
         generate_download_link store fs now fid = LinkOutcome.forbidden) ∧
      (md.scan_status = ScanStatus.pending ∨ md.scan_status = ScanStatus.scanning →
         generate_download_link store fs now fid = LinkOutcome.pendingRetry) ∧
      (∀ tok, generate_download_link store fs now fid = LinkOutcome.link tok →
         md.scan_status = ScanStatus.clean))) ∧
  (∀ (store : RedisStore) (fs : Filesystem) (now : Nat) (tok : DownloadToken)
     (p : String) (ns : RedisStore),
     download_file store fs now tok = DownloadOutcome.served p ns →
     ∃ fid md, verify_download_token now tok = some fid ∧
       get_file_metadata store fid = some md ∧ md.scan_status = ScanStatus.clean) ∧
  (∀ (store : RedisStore) (fs : Filesystem) (t now : Nat) (fid : String)
     (md : FileMetadata),
     now ≤ t + download_link_expire_hours →
     get_file_metadata store fid = some md →
     md.scan_status ≠ ScanStatus.clean →
     download_file store fs now (generate_download_token t fid none) =
       DownloadOutcome.forbidden) := by
  refine ⟨?_, ?_, ?_⟩
  · intro store fs now fid md hmd
    refine ⟨?_, ?_, ?_⟩
    · intro h
      simp [generate_download_link, hmd, h]
    · intro h
      rcases h with h | h <;> simp [generate_download_link, hmd, h]
    · intro tok hlink
      cases hs : md.scan_status with
      | clean => rfl
      | pending => simp [generate_download_link, hmd, hs] at hlink
      | scanning => simp [generate_download_link, hmd, hs] at hlink
      | infected => simp [generate_download_link, hmd, hs] at hlink
      | error => simp [generate_download_link, hmd, hs] at hlink
  · intro store fs now tok p ns h
    cases hv : verify_download_token now tok with
    | none =>
      rw [download_file_eq_none store fs now tok hv] at h
      cases h
    | some fid =>
      rw [download_file_eq_some store fs now tok fid hv] at h
      cases hm : get_file_metadata store fid with
      | none =>
        rw [download_file_verified_eq_none store fs now fid hm] at h
        cases h
      | some md =>
        rw [download_file_verified_eq_some store fs now fid md hm] at h
        by_cases hs : md.scan_status = ScanStatus.clean
        · exact ⟨fid, md, rfl, hm, hs⟩
        · rw [download_file_with_record_forbidden store fs now fid md hs] at h
          cases h
  · intro store fs t now fid md hle hmd hne
    have hv : verify_download_token now (generate_download_token t fid none) = some fid := by
      apply verify_of_decode _ _ _ (t + download_link_expire_hours)
      unfold generate_download_token
      simp only [Option.getD_none]
      exact jwtDecode_signed_ok _ now (by simp only []; omega)
    rw [download_file_eq_some store fs now _ fid hv,
        download_file_verified_eq_some store fs now fid md hmd,
        download_file_with_record_forbidden store fs now fid md hne]

/-- C2 witness: the gating theorem applied at concrete stores — an infected
record gets Forbidden from the link endpoint, a pending record gets the
retry-later signal, and a well-signed unexpired token for the infected
record is refused at redemption. -/
theorem C2_release_only_when_clean_witness :
  generate_download_link (aset [] "file:f1" mdInfected) [] 0 "f1" = LinkOutcome.forbidden ∧
  generate_download_link (aset [] "file:f1" mdPending) [] 0 "f1" = LinkOutcome.pendingRetry ∧
  download_file (aset [] "file:f1" mdInfected) [] 5 (generate_download_token 0 "f1" none) =
    DownloadOutcome.forbidden := by
  have h := C2_release_only_when_clean
  exact ⟨(h.1 (aset [] "file:f1" mdInfected) [] 0 "f1" mdInfected (by decide)).1 (by decide),
         (h.1 (aset [] "file:f1" mdPending) [] 0 "f1" mdPending (by decide)).2.1
           (Or.inl (by decide)),
         h.2.2 (aset [] "file:f1" mdInfected) [] 0 5 "f1" mdInfected (by decide) (by decide)
           (by decide)⟩

theorem filter_ne_fresh (l : List Nat) :
    List.filter (fun x => !decide (x = freshTemp l)) l = l := by
  have h := filter_ne_of_not_mem l (freshTemp l) (freshTemp_not_mem l)
  simpa using h

/-- C7: the claim says every backend's put fails with AlreadyExists when the
deterministic target already has content, and never overwrites. The S3
backend violates this: its `save_file` issues a bare `put_object`, which
succeeds on an occupied key and replaces the content (here `[1,2,3]`
becomes `[9]` with no error), while the local backend — like main.py's
`FileExistsError` handler expects of every backend — correctly refuses. -/
theorem C7_s3_put_overwrites :
  (S3Storage.save_file (aset [] "uploads/f1.txt" [1, 2, 3]) "a.txt" "f1" [9]).2 =
    aset [] "uploads/f1.txt" [9] ∧
  aget (S3Storage.save_file (aset [] "uploads/f1.txt" [1, 2, 3]) "a.txt" "f1" [9]).2
    "uploads/f1.txt" = some [9] ∧
  (∃ e, LocalStorage.save_file (aset [] "./uploads/f1.txt" [1, 2, 3]) "a.txt" "f1" [9] =
    Except.error e) := by
  refine ⟨by decide, by decide, ⟨"File f1.txt already exists", by rfl⟩⟩

/-- C8 counterexample: the claim says a completed orchestration leaves the
scratch directory unchanged on every exit path. When the remote fetch
itself fails (object missing or transfer error), `download_file_to_temp`
has already created the `mkstemp` scratch file, returns `None`, and the
orchestrator's `finally` block sees no path to clean: the scratch file
leaks — here the scratch directory grows from empty to one file. -/
theorem C8_fetch_failure_leak_counterexample :
  stEmpty.tempFiles = [] ∧
  (scan_file_for_viruses StorageType.s3 envClean stEmpty "f1" "a.txt").2.tempFiles = [1] ∧
  (scan_file_for_viruses StorageType.s3 envClean stEmpty "f1" "a.txt").1.status
    = ScanStatus.error := by
  refine ⟨rfl, by decide, by decide⟩

/-- C8 (amended): a local-backend orchestration never touches the scratch
directory, and an S3 orchestration whose fetch-to-local returns a path
removes that scratch file on every exit path, leaving the scratch
directory unchanged; only a fetch that fails after allocating its temp
file leaks it. -/
theorem C8_scratch_cleanup :
  ∀ (env : ScanEnv) (st : SysState) (fid fn : String),
    ((scan_file_for_viruses StorageType.localFs env st fid fn).2.tempFiles
       = st.tempFiles) ∧
    ((S3Storage.download_file_to_temp st env.s3_download_ok
        (S3Storage.get_s3_key fid fn)).1 ≠ none →
      (scan_file_for_viruses StorageType.s3 env st fid fn).2.tempFiles
        = st.tempFiles) := by
  intro env st fid fn
  constructor
  · by_cases h : aget st.storageFiles (LocalStorage.get_file_path fid fn) = none <;>
      simp [scan_file_for_viruses, h]
  · intro hdl
    by_cases h : env.s3_download_ok = true ∧
      aget st.storageFiles (S3Storage.get_s3_key fid fn) ≠ none
    · simp [scan_file_for_viruses, S3Storage.download_file_to_temp, h, filter_ne_fresh]
    · exfalso
      apply hdl
      simp [S3Storage.download_file_to_temp, h]

/-- C8 witness: the cleanup theorem applied to a successful staging — the
object is present in the bucket, the fetch returns a path, and the run
leaves the scratch directory as it found it. -/
theorem C8_scratch_cleanup_witness :
  (scan_file_for_viruses StorageType.s3 envClean stS3 "f1" "a.txt").2.tempFiles
    = stS3.tempFiles := by
  have h := C8_scratch_cleanup envClean stS3 "f1" "a.txt"
  exact h.2 (by decide)

/-- C9 counterexample: the claim says delete returns true iff the bytes
were present and removed, and false when absent. The S3 backend's delete
issues `delete_object`, which succeeds for an absent key too, so it
returns true on an empty bucket where nothing was present. -/
theorem C9_s3_delete_absent_counterexample :
  aget ([] : Filesystem) (S3Storage.get_s3_key "f1" "a.txt") = none ∧
  S3Storage.delete_file ([] : Filesystem) "f1" "a.txt" = (true, []) := by
  refine ⟨rfl, by decide⟩

/-- C9 (amended): the local backend's delete returns true iff the target
was present (and then actually removes it), and returns false — not an
error — leaving the store untouched when the target was absent; the S3
backend's delete returns true whenever the delete request succeeds,
including when the target was already absent. -/
theorem C9_delete_semantics :
  ∀ (fs : Filesystem) (fid orig : String),
    (aget fs (LocalStorage.get_file_path fid orig) ≠ none →
       (LocalStorage.delete_file fs fid orig).1 = true ∧
       aget (LocalStorage.delete_file fs fid orig).2
         (LocalStorage.get_file_path fid orig) = none) ∧
    (aget fs (LocalStorage.get_file_path fid orig) = none →
       LocalStorage.delete_file fs fid orig = (false, fs)) ∧
    ((S3Storage.delete_file fs fid orig).1 = true) := by
  intro fs fid orig
  refine ⟨?_, ?_, rfl⟩
  · intro h
    cases hg : aget fs (LocalStorage.get_file_path fid orig) with
    | none => exact absurd hg h
    | some v =>
      constructor
      · simp [LocalStorage.delete_file, hg]
      · simp [LocalStorage.delete_file, hg, aget_adel_self]
  · intro h
    simp [LocalStorage.delete_file, h]

/-- C9 witness: the delete theorem applied concretely — deleting a present
local file returns true, deleting an absent one returns false with the
store unchanged. -/
theorem C9_delete_semantics_witness :
  (LocalStorage.delete_file (aset [] "./uploads/f1.txt" [1]) "f1" "a.txt").1 = true ∧
  LocalStorage.delete_file ([] : Filesystem) "f1" "a.txt" = (false, []) := by
  have h := C9_delete_semantics
  exact ⟨((h (aset [] "./uploads/f1.txt" [1]) "f1" "a.txt").1 (by decide)).1,
         (h [] "f1" "a.txt").2.1 (by decide)⟩

/-- C10: upload validation accepts a filename iff its final dot-suffix,
lowercased (pathlib semantics: the dot must be neither the first nor the
last character of the name), is in the configured allowed-extension set; a
filename with no extension is rejected, and the rejection happens at
upload before any bytes or record are persisted (the state is returned
untouched); the stored target name always uses the lowercased extension,
so ".TXT" is stored as ".txt". -/
theorem C10_extension_validation :
  (∀ fn, is_allowed_file fn = true ↔ lowerString (pathSuffix fn) ∈ allowed_extensions) ∧
  (∀ fn, pathSuffix fn = "" → is_allowed_file fn = false) ∧
  (∀ (st : SysState) (now : Nat) (fn ct : String) (c : List Nat) (fid : String),
     fn ≠ "" → is_allowed_file fn = false →
     upload_file st now fn ct c fid = (UploadOutcome.notAllowed, st)) ∧
  (∀ orig fid, create_secure_filename orig fid = fid ++ lowerString (pathSuffix orig)) ∧
  (is_allowed_file "report.TXT" = true ∧
   create_secure_filename "report.TXT" "id1" = "id1.txt" ∧
   is_allowed_file "README" = false) := by
  refine ⟨?_, ?_, ?_, ?_, by decide⟩
  · intro fn
    simp [is_allowed_file, get_file_extension]
  · intro fn h
    have h2 : get_file_extension fn = "" := by
      unfold get_file_extension
      rw [h]
      decide
    unfold is_allowed_file
    rw [h2]
    decide
  · intro st now fn ct c fid hfn hna
    unfold upload_file
    rw [if_neg hfn, if_pos hna]
  · intro orig fid
    rfl

/-- C10 witness: the validation theorem applied concretely — an
extensionless name is rejected by the filter, and an upload of a
disallowed name returns the state unchanged with no bytes or record
written. -/
theorem C10_extension_validation_witness :
  is_allowed_file "README" = false ∧
  upload_file stEmpty 0 "virus.exe" "app/x" [1] "f9" = (UploadOutcome.notAllowed, stEmpty) := by
  have h := C10_extension_validation
  exact ⟨h.2.1 "README" (by decide),
         h.2.2.1 stEmpty 0 "virus.exe" "app/x" [1] "f9" (by decide) (by decide)⟩
